import Mathlib

/-!
Shallow embedding of the scene-assembly and imagery-alignment pipeline of the
Visualize-GeoJSON-with-Three.js repository, with theorems settling the spec's
claims against it.

Modelling conventions:
* JS numbers are modelled as rationals (every finite IEEE double is rational);
  intermediate values produced by `Math.log2` live in `ℝ`, and positions where
  JS produces `Infinity` (division of the positive constant 360 by a zero
  extent) are modelled in `EReal` with `⊤`.
* Stateful scene-graph code is modelled by explicit state passing over small
  state types; the asynchronous terrain-load callback is modelled by the
  ordered trace of its observable events.
-/

namespace GeoViz

/-! ## coordinateTransform.ts -/

/-- Latitude/longitude pair, degrees. -/
structure LatLon where
  lat : ℚ
  lon : ℚ
deriving DecidableEq, Repr

/-- `transformToLatLon` (coordinateTransform.ts, lines 38–56): constant-factor
linear approximation converting planar metre offsets to degrees, with
111320 metres per degree of latitude and 91290 metres per degree of
longitude. -/
def transformToLatLon (x y centerLat centerLon : ℚ) : LatLon :=
  let meterPerDegreeLat : ℚ := 111320
  let meterPerDegreeLon : ℚ := 91290
  let deltaLat := y / meterPerDegreeLat
  let deltaLon := x / meterPerDegreeLon
  { lat := centerLat + deltaLat, lon := centerLon + deltaLon }

/-- Result type of `calculateLatLonBounds`. -/
structure GeoLatLonBounds where
  southwest : LatLon
  northeast : LatLon
  center : LatLon
deriving DecidableEq, Repr

/-- `calculateLatLonBounds` (coordinateTransform.ts, lines 68–84): transforms
the (minX,minY) and (maxX,maxY) corners and takes the midpoint as center. -/
def calculateLatLonBounds (minX maxX minY maxY centerLat centerLon : ℚ) :
    GeoLatLonBounds :=
  let sw := transformToLatLon minX minY centerLat centerLon
  let ne := transformToLatLon maxX maxY centerLat centerLon
  { southwest := sw
    northeast := ne
    center := { lat := (sw.lat + ne.lat) / 2, lon := (sw.lon + ne.lon) / 2 } }

/-- Per-axis zoom candidate `Math.log2(360 / delta) - Math.log2(pixels / 256)`
(coordinateTransform.ts, lines 102–103). `delta` is an absolute difference, so
it is nonnegative; when it is `0`, JS evaluates `360 / 0 = Infinity` and
`Math.log2(Infinity) = Infinity`, and `Infinity` minus the finite pixel term is
again `Infinity`, modelled as `⊤ : EReal`. The pixel count is positive in every
use (the spec restricts to positive width/height), so the pixel term is
finite. -/
noncomputable def zoomCandidate (delta pixels : ℚ) : EReal :=
  if delta = 0 then ⊤
  else ((Real.logb 2 (360 / (delta : ℝ)) - Real.logb 2 ((pixels : ℝ) / 256) : ℝ) : EReal)

/-- The floor-and-clamp tail of `calculateZoomLevel` (coordinateTransform.ts,
lines 106–109): `Math.floor` of the chosen candidate, then
`Math.max(1, Math.min(20, zoom))`. JS propagates `Infinity` through
`Math.floor` and `Math.min(20, Infinity) = 20`, so the `⊤` case yields 20. -/
noncomputable def clampZoom (zoom : EReal) : ℤ :=
  max 1 (min 20 (if zoom = ⊤ then 20 else ⌊zoom.toReal⌋))

/-- `calculateZoomLevel` (coordinateTransform.ts, lines 93–110): absolute
lat/lon differences, one candidate per axis (latitude paired with the image
height, longitude with the width), minimum of the two, floored and clamped to
[1, 20]. -/
noncomputable def calculateZoomLevel (bounds : GeoLatLonBounds)
    (width height : ℚ) : ℤ :=
  let latDiff := |bounds.northeast.lat - bounds.southwest.lat|
  let lonDiff := |bounds.northeast.lon - bounds.southwest.lon|
  let latZoom := zoomCandidate latDiff height
  let lonZoom := zoomCandidate lonDiff width
  clampZoom (min latZoom lonZoom)

/-! ## loadAerialImagery.ts — scene state and the terrain-load callback -/

/-- Texture of the imagery plane: a fetched satellite image or the
procedurally generated placeholder. -/
inductive Texture where
  | real
  | fallback
deriving DecidableEq, Repr

/-- Scene-graph state relevant to the imagery plane: the optional group named
"terrain" with the planes it holds, and the number of registered GUI
visibility toggles for it. -/
structure SceneState where
  terrainPlanes : Option (List Texture)
  toggleCount : Nat
deriving DecidableEq, Repr

/-- Placement step shared by `createRealAerialImageryTexture`
(loadAerialImagery.ts, lines 135–154) and `createFallbackTexture`
(lines 299–318): if `scene.getObjectByName("terrain")` finds a group the new
plane is added to it, otherwise a fresh "terrain" group is created with the
plane and exactly one GUI visibility toggle is registered. -/
def placePlane (s : SceneState) (t : Texture) : SceneState :=
  match s.terrainPlanes with
  | some planes => { s with terrainPlanes := some (planes ++ [t]) }
  | none => { terrainPlanes := some [t], toggleCount := s.toggleCount + 1 }

/-- Outcome of `textureLoader.load` wrapped in a promise
(loadAerialImagery.ts, lines 98–105): resolves with the fetched texture or
rejects. The boolean oracle records whether the fetch/decode fails. -/
def textureLoad (fetchFails : Bool) : Except Unit Texture :=
  if fetchFails then .error () else .ok .real

/-- `createFallbackTexture` (loadAerialImagery.ts, lines 209–321):
synchronously places a plane with the generated placeholder texture. -/
def createFallbackTexture (s : SceneState) : SceneState :=
  placePlane s .fallback

/-- `createRealAerialImageryTexture` (loadAerialImagery.ts, lines 66–163):
awaits the texture; on success places the fetched texture, on rejection the
`catch` block substitutes the fallback texture — the error never escapes. -/
def createRealAerialImageryTexture (fetchFails : Bool) (s : SceneState) :
    SceneState :=
  match textureLoad fetchFails with
  | .ok t => placePlane s t
  | .error _ => createFallbackTexture s

/-- Observable events of the terrain-load callback, in execution order. -/
inductive TerrainEvent where
  | boundsComputed
  | decrement
  | placed (t : Texture)
deriving DecidableEq, Repr

/-- True on a `placed` event. -/
def TerrainEvent.isPlacement : TerrainEvent → Bool
  | .placed _ => true
  | _ => false

/-- Event trace of `createRealAerialImageryTexture`: exactly one placement,
of the fetched texture or of the fallback. -/
def createTextureTrace (fetchFails : Bool) : List TerrainEvent :=
  match textureLoad fetchFails with
  | .ok t => [.placed t]
  | .error _ => [.placed .fallback]

/-- The `loader.load` callback of `loadAerialImagery` (loadAerialImagery.ts,
lines 31–59), as final scene state, final counter, and ordered event trace:
the callback computes the bounds synchronously, starts the async
`createRealAerialImageryTexture` (which suspends at its first `await` before
placing anything, and whose rejection is consumed by `.catch`), then executes
`setLoadFileRemaining(prev => prev - 1)`; the texture microtask completes
afterwards and places the plane. -/
def loadAerialImagery (fetchFails : Bool) (s : SceneState) (counter : ℤ) :
    SceneState × ℤ × List TerrainEvent :=
  (createRealAerialImageryTexture fetchFails s, counter - 1,
    .boundsComputed :: .decrement :: createTextureTrace fetchFails)

/-- Rendering of the claim "the shared LoadCounter is decremented … on
entering the Placed state": in the trace, every decrement comes at or after
some placement event. -/
def decrementAtPlacement (tr : List TerrainEvent) : Prop :=
  ∀ i : Fin tr.length, tr.get i = .decrement →
    ∃ j : Fin tr.length, (tr.get j).isPlacement = true ∧ j ≤ i

instance (tr : List TerrainEvent) : Decidable (decrementAtPlacement tr) := by
  unfold decrementAtPlacement; infer_instance

/-! ## loadAerialImagery.ts — planar bounds accumulation -/

/-- Planar bounds as accumulated by the scan (loadAerialImagery.ts,
lines 35–50). The JS initial values `Infinity` / `-Infinity` are modelled by
`⊤ : WithTop ℚ` and `⊥ : WithBot ℚ`. -/
structure PlanarBounds where
  minX : WithTop ℚ
  maxX : WithBot ℚ
  minY : WithTop ℚ
  maxY : WithBot ℚ
deriving DecidableEq

/-- Initial accumulator: `minX = minY = Infinity`, `maxX = maxY = -Infinity`. -/
def initialBounds : PlanarBounds :=
  { minX := ⊤, maxX := ⊥, minY := ⊤, maxY := ⊥ }

/-- One accumulation step (loadAerialImagery.ts, lines 44–47):
`Math.min`/`Math.max` of the running bounds with the re-centered point. -/
def updateBounds (b : PlanarBounds) (p : ℚ × ℚ) : PlanarBounds :=
  { minX := min b.minX (p.1 : WithTop ℚ)
    maxX := max b.maxX (p.1 : WithBot ℚ)
    minY := min b.minY (p.2 : WithTop ℚ)
    maxY := max b.maxY (p.2 : WithBot ℚ) }

/-- One polygon feature of the terrain feature collection: a list of rings,
each a list of coordinate pairs. -/
structure TerrainFeature where
  coordinates : List (List (ℚ × ℚ))
deriving DecidableEq, Repr

/-- The terrain feature collection. -/
structure TerrainCollection where
  features : List TerrainFeature
deriving DecidableEq, Repr

/-- Points the scan actually visits (loadAerialImagery.ts, line 41:
`coordinates[0].forEach`): only the FIRST ring of each feature, each point
translated by subtracting the scene origin `center`. -/
def scannedPoints (fg : TerrainCollection) (center : ℚ × ℚ) : List (ℚ × ℚ) :=
  fg.features.flatMap fun f =>
    (f.coordinates.headD []).map fun p => (p.1 - center.1, p.2 - center.2)

/-- All coordinate pairs of the collection (every ring of every feature),
re-centered — the set the claim says is scanned. -/
def allCoordinatePairs (fg : TerrainCollection) (center : ℚ × ℚ) :
    List (ℚ × ℚ) :=
  fg.features.flatMap fun f =>
    f.coordinates.flatten.map fun p => (p.1 - center.1, p.2 - center.2)

/-- The bounds the terrain-load callback computes: fold of `updateBounds`
over the scanned points, from the `Infinity` initial accumulator. -/
def computeTerrainBounds (fg : TerrainCollection) (center : ℚ × ℚ) :
    PlanarBounds :=
  (scannedPoints fg center).foldl updateBounds initialBounds

/-- Membership of a re-centered point in planar bounds. -/
def inBounds (b : PlanarBounds) (p : ℚ × ℚ) : Prop :=
  b.minX ≤ (p.1 : WithTop ℚ) ∧ (p.1 : WithBot ℚ) ≤ b.maxX ∧
    b.minY ≤ (p.2 : WithTop ℚ) ∧ (p.2 : WithBot ℚ) ≤ b.maxY

instance (b : PlanarBounds) (p : ℚ × ℚ) : Decidable (inBounds b p) := by
  unfold inBounds; infer_instance

/-! ## loadAerialImagery.ts — provider selection -/

/-- Image request produced by `getAerialImageUrl`: either the keyed Google
Static Maps URL (parameterized by center, zoom, pixel size and the key) or
the Esri World Imagery slippy-map tile URL (parameterized by zoom/tileY/tileX). -/
inductive AerialUrl where
  | google (centerLat centerLon : ℚ) (zoom : ℤ) (width height : ℚ) (key : String)
  | tile (zoom tileY tileX : ℤ)
deriving DecidableEq, Repr

/-- `getAerialImageUrl` (loadAerialImagery.ts, lines 169–204): the
environment credential is read at request time; when present the Google URL
is returned, otherwise the tile URL with
`tileX = Math.floor((lon + 180) / 360 * 2 ** zoom)` and `tileY` from the
Mercator latitude formula (`Math.log` is the natural logarithm). Absence of
the credential is an ordinary branch, not an error. -/
noncomputable def getAerialImageUrl (apiKey : Option String)
    (bounds : GeoLatLonBounds) (zoom : ℤ) (width height : ℚ) : AerialUrl :=
  match apiKey with
  | some key => .google bounds.center.lat bounds.center.lon zoom width height key
  | none =>
      .tile zoom
        ⌊(1 - Real.log (Real.tan ((bounds.center.lat : ℝ) * Real.pi / 180) +
            1 / Real.cos ((bounds.center.lat : ℝ) * Real.pi / 180)) / Real.pi) / 2 *
            2 ^ zoom⌋
        ⌊((bounds.center.lon : ℝ) + 180) / 360 * 2 ^ zoom⌋

/-! ## ThreeScene — venue descriptor, load counter, effects -/

/-- Venue descriptor fields the core consumes (const.ts and the per-venue
manifests): geometry files, optional network node/link pair, optional terrain
file, optional declared planar center. -/
structure VenueDescriptor where
  geoFiles : List String
  networkFile : Option (String × String)
  terrainFile : Option String
  center : Option (ℚ × ℚ)
deriving DecidableEq, Repr

/-- `totalFileCount` (ThreeScene, lines 393–395):
`geoFiles.length + (networkFile ? 1 : 0) + (terrainFile ? 1 : 0)`; the
network node/link pair counts as one. `loadFileRemaining` is initialized to
this value once via `useState`. -/
def totalFileCount (v : VenueDescriptor) : ℕ :=
  v.geoFiles.length + (if v.networkFile.isSome then 1 else 0) +
    (if v.terrainFile.isSome then 1 else 0)

/-- One logical asynchronous load operation. -/
inductive LoadOp where
  | geo (file : String)
  | network
  | terrain
deriving DecidableEq, Repr

/-- Modelled from the spec: `loadAndAddToScene` (spec 4.3) and
`loadNetworkFile` (spec 4.4) are not under src — per the spec each
geometry-file load decrements the counter exactly once on completion
(success or handled failure) and the node/link pair decrements once as a
single logical load; the terrain decrement is `setLoadFileRemaining(prev =>
prev - 1)` in loadAerialImagery.ts. Every settled operation maps the counter
`c` to `c - 1`; no operation increments it. -/
def applyLoadOp (c : ℤ) (_ : LoadOp) : ℤ := c - 1

/-- The full multiset of operations a venue session expects: one per
geometry file, one for the network pair when present, one for the terrain
file when present. -/
def expectedOps (v : VenueDescriptor) : List LoadOp :=
  v.geoFiles.map LoadOp.geo ++
    (match v.networkFile with | some _ => [LoadOp.network] | none => []) ++
    (match v.terrainFile with | some _ => [LoadOp.terrain] | none => [])

/-- Center-resolution effect of ThreeScene (lines 430–445): when the venue
declares a center it is used directly and `calculateCenterPoint` is never
invoked; otherwise the centroid is computed by scanning the geometry files.
`calculateCenterPoint` is not under src, so it is abstracted as a parameter;
the boolean records whether the geometry-file scan ran. -/
def resolveCenter (calculateCenterPoint : List String → ℚ × ℚ)
    (v : VenueDescriptor) : (ℚ × ℚ) × Bool :=
  match v.center with
  | some c => (c, false)
  | none => (calculateCenterPoint v.geoFiles, true)

/-- One load started by the scene-setup effect. -/
inductive SceneOp where
  | loadGeo (file : String)
  | loadNetwork
  | loadTerrain
deriving DecidableEq, Repr

/-- Scene-setup effect of ThreeScene (lines 447–556): it returns early when
the resolved center is exactly `(0, 0)` (the `useState` initial value),
starting no load at all; otherwise it starts one load per geometry file, one
for the network pair when present and one for the terrain file when
present. -/
def sceneSetupOps (v : VenueDescriptor) (center : ℚ × ℚ) : List SceneOp :=
  if center.1 = 0 ∧ center.2 = 0 then []
  else
    v.geoFiles.map SceneOp.loadGeo ++
      (match v.networkFile with | some _ => [SceneOp.loadNetwork] | none => []) ++
      (match v.terrainFile with | some _ => [SceneOp.loadTerrain] | none => [])

/-- Counter value after the scene-setup effect's started loads all settle:
each started load decrements once. -/
def counterAfterSetup (v : VenueDescriptor) (center : ℚ × ℚ) : ℤ :=
  (sceneSetupOps v center).foldl (fun c _ => c - 1) (totalFileCount v : ℤ)

/-! ## Theorems -/

/-- Claim C3: `transformToLatLon` returns exactly
`{lat: centerLat + y/111320, lon: centerLon + x/91290}` — the constant-factor
linear approximation — it is total (always returns a value, which the Lean
function type already enforces), and deterministic: identical inputs yield
identical outputs. -/
theorem transformToLatLon_formula_deterministic :
    ∀ x y centerLat centerLon x' y' centerLat' centerLon' : ℚ,
      transformToLatLon x y centerLat centerLon =
        { lat := centerLat + y / 111320, lon := centerLon + x / 91290 } ∧
      (x = x' → y = y' → centerLat = centerLat' → centerLon = centerLon' →
        transformToLatLon x y centerLat centerLon =
          transformToLatLon x' y' centerLat' centerLon') := by
  intro x y a b x' y' a' b'
  exact ⟨rfl, fun hx hy ha hb => by rw [hx, hy, ha, hb]⟩

/-- Witness for C3 at the concrete input (100, 200, 35, 139). -/
theorem transformToLatLon_formula_deterministic_witness :
    transformToLatLon 100 200 35 139 =
      { lat := 35 + 200 / 111320, lon := 139 + 100 / 91290 } ∧
    transformToLatLon 100 200 35 139 = transformToLatLon 100 200 35 139 :=
  ⟨(transformToLatLon_formula_deterministic 100 200 35 139 100 200 35 139).1,
   (transformToLatLon_formula_deterministic 100 200 35 139 100 200 35 139).2
     rfl rfl rfl rfl⟩

/-- Claim C2: `calculateLatLonBounds` returns southwest and northeast as the
transforms of the (minX,minY) and (maxX,maxY) corners, center as their
arithmetic midpoint, and for minX ≤ maxX and minY ≤ maxY the corners are
ordered: southwest.lat ≤ northeast.lat and southwest.lon ≤ northeast.lon. -/
theorem calculateLatLonBounds_corners_ordered :
    ∀ minX maxX minY maxY centerLat centerLon : ℚ,
      (calculateLatLonBounds minX maxX minY maxY centerLat centerLon).southwest =
        transformToLatLon minX minY centerLat centerLon ∧
      (calculateLatLonBounds minX maxX minY maxY centerLat centerLon).northeast =
        transformToLatLon maxX maxY centerLat centerLon ∧
      (calculateLatLonBounds minX maxX minY maxY centerLat centerLon).center.lat =
        ((calculateLatLonBounds minX maxX minY maxY centerLat centerLon).southwest.lat +
          (calculateLatLonBounds minX maxX minY maxY centerLat centerLon).northeast.lat) / 2 ∧
      (calculateLatLonBounds minX maxX minY maxY centerLat centerLon).center.lon =
        ((calculateLatLonBounds minX maxX minY maxY centerLat centerLon).southwest.lon +
          (calculateLatLonBounds minX maxX minY maxY centerLat centerLon).northeast.lon) / 2 ∧
      (minX ≤ maxX → minY ≤ maxY →
        (calculateLatLonBounds minX maxX minY maxY centerLat centerLon).southwest.lat ≤
          (calculateLatLonBounds minX maxX minY maxY centerLat centerLon).northeast.lat ∧
        (calculateLatLonBounds minX maxX minY maxY centerLat centerLon).southwest.lon ≤
          (calculateLatLonBounds minX maxX minY maxY centerLat centerLon).northeast.lon) := by
  intro minX maxX minY maxY centerLat centerLon
  refine ⟨rfl, rfl, rfl, rfl, fun hx hy => ⟨?_, ?_⟩⟩
  · show centerLat + minY / 111320 ≤ centerLat + maxY / 111320
    linarith
  · show centerLon + minX / 91290 ≤ centerLon + maxX / 91290
    linarith

/-- Witness for C2 at the concrete bounds (0, 10, 0, 20) around (35, 139). -/
theorem calculateLatLonBounds_corners_ordered_witness :
    (calculateLatLonBounds 0 10 0 20 35 139).southwest.lat ≤
      (calculateLatLonBounds 0 10 0 20 35 139).northeast.lat ∧
    (calculateLatLonBounds 0 10 0 20 35 139).southwest.lon ≤
      (calculateLatLonBounds 0 10 0 20 35 139).northeast.lon :=
  (calculateLatLonBounds_corners_ordered 0 10 0 20 35 139).2.2.2.2
    (by norm_num) (by norm_num)

/-- Claim C9: when the venue declares an explicit center, the scene origin is
exactly that point and the geometry-file centroid scan never runs; the scan
runs exactly when no center is declared. -/
theorem resolveCenter_declared_no_scan :
    ∀ (calculateCenterPoint : List String → ℚ × ℚ) (v : VenueDescriptor)
      (c : ℚ × ℚ),
      (v.center = some c → resolveCenter calculateCenterPoint v = (c, false)) ∧
      (resolveCenter calculateCenterPoint v).2 = v.center.isNone := by
  intro f v c
  constructor
  · intro h
    simp [resolveCenter, h]
  · cases h : v.center <;> simp [resolveCenter, h]

/-- Witness for C9: a venue declaring center (1, 2) resolves to exactly that
point with no scan. -/
theorem resolveCenter_declared_no_scan_witness :
    resolveCenter (fun _ => (0, 0)) ⟨["a.geojson"], none, none, some (1, 2)⟩ =
      ((1, 2), false) :=
  (resolveCenter_declared_no_scan (fun _ => (0, 0))
    ⟨["a.geojson"], none, none, some (1, 2)⟩ (1, 2)).1 rfl

/-- Claim C10: when the resolved scene origin is exactly (0, 0) the scene
setup effect returns early — no geometry, network, or terrain load starts and
the counter keeps its initial value — and loads start only when at least one
origin coordinate is nonzero. -/
theorem sceneSetup_zero_origin_early_return :
    ∀ (v : VenueDescriptor) (center : ℚ × ℚ),
      (center = (0, 0) → sceneSetupOps v center = [] ∧
        counterAfterSetup v center = (totalFileCount v : ℤ)) ∧
      (sceneSetupOps v center ≠ [] → ¬(center.1 = 0 ∧ center.2 = 0)) := by
  intro v center
  constructor
  · rintro rfl
    have h : sceneSetupOps v (0, 0) = [] := by
      unfold sceneSetupOps
      rw [if_pos ⟨rfl, rfl⟩]
    refine ⟨h, ?_⟩
    unfold counterAfterSetup
    rw [h]
    rfl
  · intro hne hzero
    apply hne
    unfold sceneSetupOps
    rw [if_pos hzero]

/-- Witness for C10: a venue with one geometry file and a terrain file starts
nothing at origin (0, 0) and the counter stays at its initial value 2. -/
theorem sceneSetup_zero_origin_early_return_witness :
    sceneSetupOps ⟨["a.geojson"], none, some "t.geojson", none⟩ (0, 0) = [] ∧
    counterAfterSetup ⟨["a.geojson"], none, some "t.geojson", none⟩ (0, 0) =
      (totalFileCount ⟨["a.geojson"], none, some "t.geojson", none⟩ : ℤ) :=
  (sceneSetup_zero_origin_early_return
    ⟨["a.geojson"], none, some "t.geojson", none⟩ (0, 0)).1 rfl

/-- Folding placements into a state that already has the terrain group only
appends the planes and registers no toggle. -/
theorem foldl_placePlane_some (ts : List Texture) :
    ∀ (planes : List Texture) (n : Nat),
      ts.foldl placePlane { terrainPlanes := some planes, toggleCount := n } =
        { terrainPlanes := some (planes ++ ts), toggleCount := n } := by
  induction ts with
  | nil => intro planes n; simp
  | cons t ts ih =>
    intro planes n
    rw [List.foldl_cons]
    show ts.foldl placePlane
        { terrainPlanes := some (planes ++ [t]), toggleCount := n } = _
    rw [ih]
    simp

/-- Claim C6: placement is idempotent with respect to the visibility toggle —
the first placement creates the "terrain" group and registers exactly one
toggle, a placement into an existing group only appends the plane and
registers nothing, and no sequence of placements from an empty scene ever
reaches a second toggle. -/
theorem placePlane_toggle_idempotent :
    ∀ (s : SceneState) (t : Texture) (planes ts : List Texture),
      (s.terrainPlanes = none →
        placePlane s t =
          { terrainPlanes := some [t], toggleCount := s.toggleCount + 1 }) ∧
      (s.terrainPlanes = some planes →
        placePlane s t =
          { terrainPlanes := some (planes ++ [t]), toggleCount := s.toggleCount }) ∧
      (ts ≠ [] →
        (ts.foldl placePlane { terrainPlanes := none, toggleCount := 0 }).toggleCount = 1) ∧
      (ts.foldl placePlane { terrainPlanes := none, toggleCount := 0 }).toggleCount ≤ 1 := by
  intro s t planes ts
  have hfold : ∀ ts' : List Texture, ts' ≠ [] →
      (ts'.foldl placePlane { terrainPlanes := none, toggleCount := 0 }).toggleCount = 1 := by
    intro ts' hne
    match ts', hne with
    | t' :: rest, _ =>
      rw [List.foldl_cons]
      show (rest.foldl placePlane
        { terrainPlanes := some [t'], toggleCount := 1 }).toggleCount = 1
      rw [foldl_placePlane_some]
  refine ⟨?_, ?_, hfold ts, ?_⟩
  · intro h
    unfold placePlane
    rw [h]
  · intro h
    unfold placePlane
    rw [h]
  · match ts with
    | [] => exact Nat.zero_le 1
    | t' :: rest => exact le_of_eq (hfold (t' :: rest) (by simp))

/-- Witness for C6: first placement registers the single toggle, a second
placement into the existing group registers none, and a two-placement
sequence ends with exactly one toggle. -/
theorem placePlane_toggle_idempotent_witness :
    placePlane { terrainPlanes := none, toggleCount := 0 } .real =
      { terrainPlanes := some [.real], toggleCount := 1 } ∧
    placePlane { terrainPlanes := some [.real], toggleCount := 1 } .fallback =
      { terrainPlanes := some [.real, .fallback], toggleCount := 1 } ∧
    (([.real, .fallback] : List Texture).foldl placePlane
      { terrainPlanes := none, toggleCount := 0 }).toggleCount = 1 :=
  ⟨(placePlane_toggle_idempotent ⟨none, 0⟩ .real [] []).1 rfl,
   (placePlane_toggle_idempotent ⟨some [.real], 1⟩ .fallback [.real] []).2.1 rfl,
   (placePlane_toggle_idempotent ⟨none, 0⟩ .real [] [.real, .fallback]).2.2.1
     (by simp)⟩

/-- Placement always leaves the terrain group in the scene. -/
theorem placePlane_terrain_present (s : SceneState) (t : Texture) :
    (placePlane s t).terrainPlanes ≠ none := by
  cases h : s.terrainPlanes <;> simp [placePlane, h]

/-- Counterexample for C4: in the run where the image fetch fails, the
counter decrement occurs strictly before the plane is placed, so the
decrement is not taken on entering the Placed state. -/
theorem loadAerialImagery_decrement_before_placement :
    ¬ decrementAtPlacement (loadAerialImagery true ⟨none, 0⟩ 1).2.2 := by
  decide

/-- Claim C4 (amended): the terrain-load callback consumes any fetch/decode
failure locally (the failing run places the fallback-textured plane, no error
escapes — the model is a total function), every run's trace ends with a
placed plane in the terrain group, and the counter is decremented exactly
once per terrain-file load, in the load callback after bounds computation and
before the plane is placed, regardless of path. -/
theorem loadAerialImagery_amended :
    ∀ (fetchFails : Bool) (s : SceneState) (c : ℤ),
      (∃ t, (loadAerialImagery fetchFails s c).2.2 =
          [.boundsComputed, .decrement, .placed t] ∧
        (loadAerialImagery fetchFails s c).1 = placePlane s t) ∧
      (loadAerialImagery fetchFails s c).2.1 = c - 1 ∧
      List.count .decrement (loadAerialImagery fetchFails s c).2.2 = 1 ∧
      (loadAerialImagery fetchFails s c).1.terrainPlanes ≠ none ∧
      (fetchFails = true →
        (loadAerialImagery fetchFails s c).1 = placePlane s .fallback) := by
  intro fetchFails s c
  cases fetchFails
  · exact ⟨⟨.real, rfl, rfl⟩, rfl, rfl,
      placePlane_terrain_present s .real, fun h => nomatch h⟩
  · exact ⟨⟨.fallback, rfl, rfl⟩, rfl, rfl,
      placePlane_terrain_present s .fallback, fun _ => rfl⟩

/-- Witness for C4 (amended) at the failing run from the empty scene. -/
theorem loadAerialImagery_amended_witness :
    (loadAerialImagery true { terrainPlanes := none, toggleCount := 0 } 1).2.1 = 0 ∧
    (loadAerialImagery true { terrainPlanes := none, toggleCount := 0 } 1).1 =
      placePlane { terrainPlanes := none, toggleCount := 0 } .fallback :=
  ⟨(loadAerialImagery_amended true ⟨none, 0⟩ 1).2.1,
   (loadAerialImagery_amended true ⟨none, 0⟩ 1).2.2.2.2 rfl⟩

/-- Folding load operations subtracts the number of operations. -/
theorem foldl_applyLoadOp (l : List LoadOp) :
    ∀ c : ℤ, l.foldl applyLoadOp c = c - l.length := by
  induction l with
  | nil => intro c; simp
  | cons op l ih =>
    intro c
    rw [List.foldl_cons, ih]
    unfold applyLoadOp
    rw [List.length_cons]
    push_cast
    ring

/-- The expected operation list has exactly `totalFileCount` elements. -/
theorem expectedOps_length (v : VenueDescriptor) :
    (expectedOps v).length = totalFileCount v := by
  rcases v with ⟨g, nf, tf, c⟩
  unfold expectedOps totalFileCount
  cases nf <;> cases tf <;> simp

/-- Claim C5: the counter is initialized once to geometry files + 1 for a
present network pair + 1 for a present terrain file, every settled operation
decrements (never increments), and after all expected operations settle — in
any completion order — the counter is exactly 0. -/
theorem loadCounter_settles_to_zero :
    ∀ (v : VenueDescriptor) (l : List LoadOp), l.Perm (expectedOps v) →
      totalFileCount v = v.geoFiles.length +
        (if v.networkFile.isSome then 1 else 0) +
        (if v.terrainFile.isSome then 1 else 0) ∧
      (∀ (c : ℤ) (op : LoadOp), applyLoadOp c op ≤ c) ∧
      l.foldl applyLoadOp (totalFileCount v : ℤ) = 0 := by
  intro v l hperm
  refine ⟨rfl, fun c op => by unfold applyLoadOp; omega, ?_⟩
  rw [foldl_applyLoadOp, hperm.length_eq, expectedOps_length]
  omega

/-- Witness for C5: a venue with 5 geometry files, a network pair and a
terrain file (7 operations total) settles to exactly 0 under an out-of-order
completion sequence. -/
theorem loadCounter_settles_to_zero_witness :
    ([LoadOp.geo "g2", .geo "g1", .geo "g3", .geo "g4", .geo "g5",
        .terrain, .network].foldl applyLoadOp
      (totalFileCount
        ⟨["g1", "g2", "g3", "g4", "g5"], some ("n", "l"), some "t", none⟩ : ℤ)) = 0 :=
  (loadCounter_settles_to_zero
    ⟨["g1", "g2", "g3", "g4", "g5"], some ("n", "l"), some "t", none⟩
    [.geo "g2", .geo "g1", .geo "g3", .geo "g4", .geo "g5", .terrain, .network]
    (by decide)).2.2

/-- Claim C7: the imagery provider is chosen by priority — with a configured
credential the keyed static-map URL parameterized by center lat/lon, zoom and
pixel size is returned; without one (a normal branch, the function is total)
the slippy-map tile URL is returned with
`tileX = ⌊(lon + 180)/360 · 2^zoom⌋` and `tileY` from the standard Mercator
latitude formula. -/
theorem getAerialImageUrl_provider_priority :
    ∀ (apiKey : Option String) (bounds : GeoLatLonBounds) (zoom : ℤ)
      (width height : ℚ),
      (∀ key, apiKey = some key →
        getAerialImageUrl apiKey bounds zoom width height =
          .google bounds.center.lat bounds.center.lon zoom width height key) ∧
      (apiKey = none →
        getAerialImageUrl apiKey bounds zoom width height =
          .tile zoom
            ⌊(1 - Real.log (Real.tan ((bounds.center.lat : ℝ) * Real.pi / 180) +
                1 / Real.cos ((bounds.center.lat : ℝ) * Real.pi / 180)) / Real.pi) / 2 *
                2 ^ zoom⌋
            ⌊((bounds.center.lon : ℝ) + 180) / 360 * 2 ^ zoom⌋) := by
  intro apiKey bounds zoom width height
  constructor
  · rintro key rfl
    rfl
  · rintro rfl
    rfl

/-- Witness for C7 at concrete inputs: the keyed branch and the keyless
branch. -/
theorem getAerialImageUrl_provider_priority_witness :
    getAerialImageUrl (some "KEY") ⟨⟨35, 139⟩, ⟨35, 139⟩, ⟨35, 139⟩⟩ 5 640 640 =
      .google 35 139 5 640 640 "KEY" ∧
    getAerialImageUrl none ⟨⟨35, 139⟩, ⟨35, 139⟩, ⟨35, 139⟩⟩ 5 640 640 =
      .tile 5
        ⌊(1 - Real.log (Real.tan ((35 : ℝ) * Real.pi / 180) +
            1 / Real.cos ((35 : ℝ) * Real.pi / 180)) / Real.pi) / 2 * 2 ^ (5 : ℤ)⌋
        ⌊((139 : ℝ) + 180) / 360 * 2 ^ (5 : ℤ)⌋ :=
  ⟨(getAerialImageUrl_provider_priority (some "KEY")
      ⟨⟨35, 139⟩, ⟨35, 139⟩, ⟨35, 139⟩⟩ 5 640 640).1 "KEY" rfl,
   (getAerialImageUrl_provider_priority none
      ⟨⟨35, 139⟩, ⟨35, 139⟩, ⟨35, 139⟩⟩ 5 640 640).2 rfl⟩

/-- One bound state is at least as wide as another. -/
def widens (b b' : PlanarBounds) : Prop :=
  b'.minX ≤ b.minX ∧ b.maxX ≤ b'.maxX ∧ b'.minY ≤ b.minY ∧ b.maxY ≤ b'.maxY

/-- Each accumulation step only widens the bounds. -/
theorem updateBounds_widens (b : PlanarBounds) (p : ℚ × ℚ) :
    widens b (updateBounds b p) :=
  ⟨min_le_left _ _, le_max_left _ _, min_le_left _ _, le_max_left _ _⟩

/-- Widening is transitive. -/
theorem widens_trans {a b c : PlanarBounds} (h1 : widens a b) (h2 : widens b c) :
    widens a c :=
  ⟨le_trans h2.1 h1.1, le_trans h1.2.1 h2.2.1,
   le_trans h2.2.2.1 h1.2.2.1, le_trans h1.2.2.2 h2.2.2.2⟩

/-- The whole fold only widens the starting bounds. -/
theorem foldl_updateBounds_widens (l : List (ℚ × ℚ)) :
    ∀ b : PlanarBounds, widens b (l.foldl updateBounds b) := by
  induction l with
  | nil =>
    intro b
    exact ⟨le_refl _, le_refl _, le_refl _, le_refl _⟩
  | cons p l ih =>
    intro b
    exact widens_trans (updateBounds_widens b p) (ih (updateBounds b p))

/-- Wider bounds contain every point the narrower bounds contain. -/
theorem inBounds_of_widens {b b' : PlanarBounds} {q : ℚ × ℚ}
    (hw : widens b b') (hq : inBounds b q) : inBounds b' q :=
  ⟨le_trans hw.1 hq.1, le_trans hq.2.1 hw.2.1,
   le_trans hw.2.2.1 hq.2.2.1, le_trans hq.2.2.2 hw.2.2.2⟩

/-- A processed point is inside the updated bounds. -/
theorem inBounds_updateBounds_self (b : PlanarBounds) (p : ℚ × ℚ) :
    inBounds (updateBounds b p) p :=
  ⟨min_le_right _ _, le_max_right _ _, min_le_right _ _, le_max_right _ _⟩

/-- Every point of the scan list is inside the folded bounds. -/
theorem inBounds_foldl_of_mem (l : List (ℚ × ℚ)) :
    ∀ (b : PlanarBounds) (q : ℚ × ℚ), q ∈ l → inBounds (l.foldl updateBounds b) q := by
  induction l with
  | nil =>
    intro b q h
    cases h
  | cons p l ih =>
    intro b q h
    rcases List.mem_cons.mp h with rfl | h
    · exact inBounds_of_widens (foldl_updateBounds_widens l (updateBounds b q))
        (inBounds_updateBounds_self b q)
    · exact ih (updateBounds b p) q h

/-- Concrete counterexample collection for C8: one polygon feature whose
first ring is [(0,0)] and whose second ring is [(5,5)]. -/
def cexCollection : TerrainCollection :=
  { features := [{ coordinates := [[(0, 0)], [(5, 5)]] }] }

/-- Counterexample for C8: the scan visits only the first ring of each
feature, so the re-centered coordinate pair (5,5) of the second ring, although
a coordinate pair of the collection, lies outside the final bounds — the
accumulation does not scan all coordinate pairs of the collection. -/
theorem terrainBounds_misses_inner_ring :
    ((5 : ℚ), (5 : ℚ)) ∈ allCoordinatePairs cexCollection (0, 0) ∧
    ¬ inBounds (computeTerrainBounds cexCollection (0, 0)) (5, 5) := by
  constructor
  · show ((5 : ℚ), (5 : ℚ)) ∈
      [((0 : ℚ) - 0, (0 : ℚ) - 0), ((5 : ℚ) - 0, (5 : ℚ) - 0)]
    simp
  · intro hin
    have h5 : ((5 : ℚ) : WithBot ℚ) ≤
        (computeTerrainBounds cexCollection (0, 0)).maxX := hin.2.1
    have hmax : (computeTerrainBounds cexCollection (0, 0)).maxX =
        ((0 : ℚ) : WithBot ℚ) := by
      show max ⊥ (((0 : ℚ) - 0 : ℚ) : WithBot ℚ) = ((0 : ℚ) : WithBot ℚ)
      rw [max_eq_right bot_le, sub_zero]
    rw [hmax] at h5
    exact absurd (WithBot.coe_le_coe.mp h5) (by norm_num)

/-- Claim C8 (amended): the planar bounds are accumulated by scanning the
re-centered coordinate pairs of each feature's first ring (not every ring);
the accumulation is monotonic — each additional point only widens the
bounds — and every scanned re-centered point lies within the final bounds. -/
theorem terrainBounds_monotone_contain_scanned :
    ∀ (b : PlanarBounds) (p : ℚ × ℚ) (fg : TerrainCollection) (c q : ℚ × ℚ),
      ((updateBounds b p).minX ≤ b.minX ∧ b.maxX ≤ (updateBounds b p).maxX ∧
        (updateBounds b p).minY ≤ b.minY ∧ b.maxY ≤ (updateBounds b p).maxY) ∧
      inBounds (updateBounds b p) p ∧
      (q ∈ scannedPoints fg c → inBounds (computeTerrainBounds fg c) q) := by
  intro b p fg c q
  exact ⟨updateBounds_widens b p, inBounds_updateBounds_self b p,
    fun hq => inBounds_foldl_of_mem (scannedPoints fg c) initialBounds q hq⟩

/-- Witness for C8 (amended): the scanned point (0,0) of the counterexample
collection is inside the final bounds, and a concrete update step widens. -/
theorem terrainBounds_monotone_contain_scanned_witness :
    inBounds (computeTerrainBounds cexCollection (0, 0)) (0, 0) ∧
    (updateBounds initialBounds (3, 4)).minX ≤ initialBounds.minX :=
  ⟨(terrainBounds_monotone_contain_scanned initialBounds (3, 4) cexCollection
      (0, 0) (0, 0)).2.2
      (by show ((0 : ℚ), (0 : ℚ)) ∈ [((0 : ℚ) - 0, (0 : ℚ) - 0)]; simp),
   (terrainBounds_monotone_contain_scanned initialBounds (3, 4) cexCollection
      (0, 0) (0, 0)).1.1⟩

/-- Zero extent on an axis yields the infinite candidate. -/
theorem zoomCandidate_zero (pixels : ℚ) : zoomCandidate 0 pixels = ⊤ := by
  unfold zoomCandidate
  rw [if_pos rfl]

/-- Nonzero extent yields the finite log-formula candidate. -/
theorem zoomCandidate_of_ne (delta pixels : ℚ) (hd : delta ≠ 0) :
    zoomCandidate delta pixels =
      ((Real.logb 2 (360 / (delta : ℝ)) -
        Real.logb 2 ((pixels : ℝ) / 256) : ℝ) : EReal) := by
  unfold zoomCandidate
  rw [if_neg hd]

/-- The clamp tail always lands in [1, 20]. -/
theorem clampZoom_range (z : EReal) : 1 ≤ clampZoom z ∧ clampZoom z ≤ 20 := by
  unfold clampZoom
  exact ⟨le_max_left _ _, max_le (by norm_num) (min_le_left _ _)⟩

/-- The clamp tail maps the infinite candidate to 20. -/
theorem clampZoom_top : clampZoom ⊤ = 20 := by
  unfold clampZoom
  rw [if_pos rfl]
  norm_num

/-- The clamp tail on a finite candidate is floor-then-clamp. -/
theorem clampZoom_coe (x : ℝ) : clampZoom (x : EReal) = max 1 (min 20 ⌊x⌋) := by
  unfold clampZoom
  rw [if_neg (EReal.coe_ne_top x), EReal.toReal_coe]

/-- Claim C1: `calculateZoomLevel` computes one candidate per axis as
`log2(360/Δ) − log2(pixels/256)` on the absolute lat/lon differences, takes
the minimum, floors, and clamps to [1, 20]; the result is always an integer
in [1, 20], and zero-extent bounds on both axes give the maximum zoom 20. -/
theorem calculateZoomLevel_formula_clamped :
    ∀ (bounds : GeoLatLonBounds) (width height : ℚ), 0 < width → 0 < height →
      (1 ≤ calculateZoomLevel bounds width height ∧
        calculateZoomLevel bounds width height ≤ 20) ∧
      (bounds.northeast.lat = bounds.southwest.lat →
        bounds.northeast.lon = bounds.southwest.lon →
        calculateZoomLevel bounds width height = 20) ∧
      (bounds.northeast.lat ≠ bounds.southwest.lat →
        bounds.northeast.lon ≠ bounds.southwest.lon →
        calculateZoomLevel bounds width height =
          max 1 (min 20
            ⌊min
              (Real.logb 2
                  (360 / |(bounds.northeast.lat : ℝ) - (bounds.southwest.lat : ℝ)|) -
                Real.logb 2 ((height : ℝ) / 256))
              (Real.logb 2
                  (360 / |(bounds.northeast.lon : ℝ) - (bounds.southwest.lon : ℝ)|) -
                Real.logb 2 ((width : ℝ) / 256))⌋)) := by
  intro b w h _ _
  have e : calculateZoomLevel b w h =
      clampZoom (min (zoomCandidate |b.northeast.lat - b.southwest.lat| h)
        (zoomCandidate |b.northeast.lon - b.southwest.lon| w)) := rfl
  refine ⟨?_, ?_, ?_⟩
  · rw [e]
    exact clampZoom_range _
  · intro hla hlo
    rw [e, hla, hlo, sub_self, sub_self, abs_zero, zoomCandidate_zero,
      zoomCandidate_zero, min_self]
    exact clampZoom_top
  · intro hla hlo
    have hd1 : |b.northeast.lat - b.southwest.lat| ≠ 0 :=
      abs_ne_zero.mpr (sub_ne_zero.mpr hla)
    have hd2 : |b.northeast.lon - b.southwest.lon| ≠ 0 :=
      abs_ne_zero.mpr (sub_ne_zero.mpr hlo)
    rw [e, zoomCandidate_of_ne _ _ hd1, zoomCandidate_of_ne _ _ hd2,
      ← EReal.coe_strictMono.monotone.map_min, clampZoom_coe]
    push_cast
    rfl

/-- Witness for C1 at the zero-extent bounds around (35, 139) with the
default 640×640 image: the result is the maximum zoom 20, inside [1, 20]. -/
theorem calculateZoomLevel_formula_clamped_witness :
    calculateZoomLevel ⟨⟨35, 139⟩, ⟨35, 139⟩, ⟨35, 139⟩⟩ 640 640 = 20 ∧
    1 ≤ calculateZoomLevel ⟨⟨35, 139⟩, ⟨35, 139⟩, ⟨35, 139⟩⟩ 640 640 :=
  ⟨(calculateZoomLevel_formula_clamped ⟨⟨35, 139⟩, ⟨35, 139⟩, ⟨35, 139⟩⟩ 640 640
      (by norm_num) (by norm_num)).2.1 rfl rfl,
   (calculateZoomLevel_formula_clamped ⟨⟨35, 139⟩, ⟨35, 139⟩, ⟨35, 139⟩⟩ 640 640
      (by norm_num) (by norm_num)).1.1⟩

end GeoViz
